import Mathlib

/-
Verification of the Streamlit question-answering app (src/qa.py).

The app is embedded shallowly:
* the external HuggingFace pipeline is an abstract function from
  (question, context) to either a result record or a raised exception
  (`Except String QAResult`);
* every Streamlit display call (st.title, st.error, st.success,
  st.metric, st.warning, ...) is recorded as an `Output` event, in
  source order;
* `st.stop()` is recorded by the `halted` flag of `RunResult`;
* the number of invocations of the pipeline inside the button handler
  is counted in `modelCalls`.
-/

namespace QA

/-- Record returned by a successful call of the question-answering
pipeline.  The score key of the Python dict may be absent (the code
reads it with result.get, defaulting to 0), hence `Option`. -/
structure QAResult where
  answer : String
  score : Option ℚ
deriving DecidableEq, Repr

/-- The external QA pipeline: takes (question, context), returns a
result or raises an exception carrying a message. -/
abbrev Pipeline := String → String → Except String QAResult

/-- Python string truthiness: a string is truthy iff it is non-empty.
Models the test `if context and question:` in qa.py line 70. -/
def truthy (s : String) : Bool := s ≠ ""

/-- One Streamlit display event, tagged by which widget produced it. -/
inductive Output where
  | title (s : String)
  | sidebarHeader (s : String)
  | sidebarInfo (s : String)
  | header (s : String)
  | textArea (label value : String)
  | textInput (label placeholder : String)
  | button (label : String)
  | subheader (s : String)
  | success (s : String)
  | metric (label value : String)
  | warning (s : String)
  | error (s : String)
  | markdown (s : String)
deriving DecidableEq, Repr

/-- Two-digit decimal rendering of a natural number below 100. -/
def pad2 (n : Nat) : String :=
  if n < 10 then "0" ++ toString n else toString n

/-- Round the fraction n / d (with d positive) to the nearest integer,
ties to even, as Python float formatting does when the value to print
is exactly half-way between two representable outputs. -/
def roundHalfEvenFrac (n d : ℤ) : ℤ :=
  let f := n.fdiv d
  let twice := 2 * (n - f * d)
  if twice < d then f
  else if d < twice then f + 1
  else if f % 2 = 0 then f else f + 1

/-- Python percent formatting with two decimals (format spec .2
percent, as used at qa.py line 81): multiply by 100, keep two decimal
digits, append a percent sign.  The value q * 10000 (hundredths of a
percent) is the fraction q.num * 10000 over q.den. -/
def formatPercent2 (q : ℚ) : String :=
  let x := roundHalfEvenFrac (q.num * 10000) q.den
  let sign := if x < 0 then "-" else ""
  let m := x.natAbs
  sign ++ toString (m / 100) ++ "." ++ pad2 (m % 100) ++ "%"

/-- The low-confidence threshold 0.5 of qa.py line 84, as an exact
rational. -/
def half : ℚ := mkRat 1 2

/-- The low-confidence advisory message, qa.py line 85. -/
def lowConfidenceMsg : String :=
  "The confidence is relatively low. The answer might not be entirely accurate."

/-- The missing-input warning message, qa.py line 92. -/
def provideBothMsg : String :=
  "Please provide both a context and a question."

/-- The page-level error shown when the model handle is None, qa.py line 40. -/
def loadFailMsg : String :=
  "Failed to load the Question Answering model. Please check your installation."

/-- The sidebar usage text, qa.py lines 45-49. -/
def sidebarText : String :=
  "1. Enter a context paragraph in the text area\n2. Ask a specific question about the context\n3. Click the Get Answer button to see the results"

/-- The footer attribution line, qa.py line 96. -/
def footerText : String :=
  "*Presented to you  by Shamitha Reddy N and Team (Powered by Hugging Face Transformers*)"

/-- Body of the button-press branch, qa.py lines 68-92: validate both
inputs are truthy, call the pipeline once inside try/except, display
answer, confidence metric and conditional warning, or the inline
error; otherwise display the missing-input warning without calling the
model.  Returns the emitted outputs and the number of pipeline calls. -/
def buttonHandler (qa : Pipeline) (context question : String) :
    List Output × Nat :=
  if truthy context && truthy question then
    match qa question context with
    | .ok result =>
        let confidence := result.score.getD 0
        ([.subheader "📌 Answer:",
          .success result.answer,
          .metric "Confidence" (formatPercent2 confidence)] ++
         (if confidence < half then [.warning lowConfidenceMsg] else []), 1)
    | .error e =>
        ([.error ("Error processing your question: " ++ e)], 1)
  else
    ([.warning provideBothMsg], 0)

/-- Result of one run of main: display events in source order, whether
st.stop() halted the script, and how many times the pipeline ran. -/
structure RunResult where
  outputs : List Output
  halted : Bool
  modelCalls : Nat
deriving DecidableEq, Repr

/-- The main function, qa.py lines 27-96.  `load` is the outcome of
the pipeline constructor inside load_qa_model (lines 14-25): on
exception, load_qa_model displays the loading error and returns None,
and main then displays the page-level error and calls st.stop(), so
the form widgets are never rendered.  `pressed` is the value returned
by st.button; `context` and `question` are the widget values. -/
def mainRun (load : Except String Pipeline) (pressed : Bool)
    (context question : String) : RunResult :=
  let pre := [Output.title "🤖 Question Answering Assistant"]
  match load with
  | .error e =>
      { outputs := pre ++
          [.error ("Error loading model: " ++ e), .error loadFailMsg],
        halted := true, modelCalls := 0 }
  | .ok qa =>
      let form := [Output.sidebarHeader "How to Use",
                   .sidebarInfo sidebarText,
                   .header "📝 Context",
                   .textArea "Enter your context paragraph:" context,
                   .header "❓ Your Question",
                   .textInput "What would you like to know?"
                     "E.g., When did Einstein win the Nobel Prize?",
                   .button "🔍 Get Answer"]
      let pressOuts := if pressed then buttonHandler qa context question
                       else ([], 0)
      let footer := [Output.markdown "---", .markdown footerText]
      { outputs := pre ++ form ++ pressOuts.1 ++ footer,
        halted := false, modelCalls := pressOuts.2 }

/-- A pipeline that always succeeds with the given answer and score. -/
def qaOk (ans : String) (sc : Option ℚ) : Pipeline :=
  fun _ _ => .ok ⟨ans, sc⟩

/-- A pipeline that always raises, carrying the given message. -/
def qaFail (msg : String) : Pipeline :=
  fun _ _ => .error msg

/-- The threshold constant is the rational one half. -/
theorem half_eq : half = 1/2 := by
  norm_num [half, mkRat, Rat.normalize]

/-- C1: for every successful model call whose result has confidence
score c, the low-confidence warning is displayed if and only if
c < 0.5. -/
theorem C1_low_confidence_warning_iff (qa : Pipeline)
    (context question : String) (r : QAResult) (c : ℚ)
    (hc : truthy context = true) (hq : truthy question = true)
    (hcall : qa question context = .ok r) (hscore : r.score = some c) :
    (Output.warning lowConfidenceMsg ∈
      (mainRun (.ok qa) true context question).outputs) ↔ c < 1/2 := by
  rw [← half_eq]
  by_cases h : c < half <;>
    simp [mainRun, buttonHandler, hc, hq, hcall, hscore, h,
      lowConfidenceMsg, footerText, sidebarText]

/-- Witness for C1 at a concrete pipeline and inputs. -/
theorem C1_witness :
    (Output.warning lowConfidenceMsg ∈
      (mainRun (.ok (qaOk "1921" (some (mkRat 9 10)))) true "c" "q").outputs)
      ↔ mkRat 9 10 < 1/2 :=
  C1_low_confidence_warning_iff (qaOk "1921" (some (mkRat 9 10))) "c" "q"
    ⟨"1921", some (mkRat 9 10)⟩ (mkRat 9 10) (by decide) (by decide) rfl rfl

/-- C2: a button press with empty context or empty question displays
the missing-input warning and never invokes the model. -/
theorem C2_missing_input_no_call (qa : Pipeline) (context question : String)
    (h : context = "" ∨ question = "") :
    Output.warning provideBothMsg ∈
      (mainRun (.ok qa) true context question).outputs ∧
    (mainRun (.ok qa) true context question).modelCalls = 0 := by
  have hfalse : (truthy context && truthy question) = false := by
    rcases h with h | h <;> subst h <;> simp [truthy]
  simp [mainRun, buttonHandler, hfalse]

/-- Witness for C2 with an empty question. -/
theorem C2_witness :
    Output.warning provideBothMsg ∈
      (mainRun (.ok (qaOk "a" (some 1))) true "some context" "").outputs ∧
    (mainRun (.ok (qaOk "a" (some 1))) true "some context" "").modelCalls = 0 :=
  C2_missing_input_no_call (qaOk "a" (some 1)) "some context" "" (Or.inr rfl)

/-- C3: if model loading fails, the session halts with a page-level
error before any form widget is rendered, and the model is never
called. -/
theorem C3_load_failure_halts (e : String) (pressed : Bool)
    (context question : String) :
    (mainRun (.error e) pressed context question).halted = true ∧
    Output.error ("Error loading model: " ++ e) ∈
      (mainRun (.error e) pressed context question).outputs ∧
    Output.error loadFailMsg ∈
      (mainRun (.error e) pressed context question).outputs ∧
    (∀ l v, Output.textArea l v ∉
      (mainRun (.error e) pressed context question).outputs) ∧
    (∀ l p, Output.textInput l p ∉
      (mainRun (.error e) pressed context question).outputs) ∧
    (∀ l, Output.button l ∉
      (mainRun (.error e) pressed context question).outputs) ∧
    (mainRun (.error e) pressed context question).modelCalls = 0 := by
  simp [mainRun]

/-- C4: a button press with truthy context and question calls the
pipeline exactly once. -/
theorem C4_exactly_one_call (qa : Pipeline) (context question : String)
    (hc : truthy context = true) (hq : truthy question = true) :
    (mainRun (.ok qa) true context question).modelCalls = 1 := by
  rcases hcall : qa question context with r | r <;>
    simp [mainRun, buttonHandler, hc, hq, hcall]

/-- Witness for C4 at a concrete pipeline and inputs. -/
theorem C4_witness :
    (mainRun (.ok (qaOk "1921" (some 1))) true "c" "q").modelCalls = 1 :=
  C4_exactly_one_call (qaOk "1921" (some 1)) "c" "q" (by decide) (by decide)

/-- C5: a button press with truthy context and question always
produces visible output: either an answer together with a Confidence
metric, or an error message. -/
theorem C5_no_silent_noop (qa : Pipeline) (context question : String)
    (hc : truthy context = true) (hq : truthy question = true) :
    ((∃ a, Output.success a ∈
        (mainRun (.ok qa) true context question).outputs) ∧
     (∃ v, Output.metric "Confidence" v ∈
        (mainRun (.ok qa) true context question).outputs)) ∨
    (∃ m, Output.error m ∈
        (mainRun (.ok qa) true context question).outputs) := by
  rcases hcall : qa question context with e | r
  · exact Or.inr ⟨"Error processing your question: " ++ e,
      by simp [mainRun, buttonHandler, hc, hq, hcall]⟩
  · refine Or.inl ⟨⟨r.answer, ?_⟩,
      ⟨formatPercent2 (r.score.getD 0), ?_⟩⟩ <;>
      simp [mainRun, buttonHandler, hc, hq, hcall]

/-- Witness for C5 at a concrete failing pipeline. -/
theorem C5_witness :
    ((∃ a, Output.success a ∈
        (mainRun (.ok (qaFail "boom")) true "c" "q").outputs) ∧
     (∃ v, Output.metric "Confidence" v ∈
        (mainRun (.ok (qaFail "boom")) true "c" "q").outputs)) ∨
    (∃ m, Output.error m ∈
        (mainRun (.ok (qaFail "boom")) true "c" "q").outputs) :=
  C5_no_silent_noop (qaFail "boom") "c" "q" (by decide) (by decide)

/-- C6: if the pipeline raises during answer extraction, the handler
displays an inline error carrying the exception text and the session
is not halted. -/
theorem C6_extraction_error_nonfatal (qa : Pipeline)
    (context question e : String)
    (hc : truthy context = true) (hq : truthy question = true)
    (hcall : qa question context = .error e) :
    Output.error ("Error processing your question: " ++ e) ∈
      (mainRun (.ok qa) true context question).outputs ∧
    (mainRun (.ok qa) true context question).halted = false := by
  simp [mainRun, buttonHandler, hc, hq, hcall]

/-- Witness for C6 at a concrete raising pipeline. -/
theorem C6_witness :
    Output.error ("Error processing your question: " ++ "boom") ∈
      (mainRun (.ok (qaFail "boom")) true "c" "q").outputs ∧
    (mainRun (.ok (qaFail "boom")) true "c" "q").halted = false :=
  C6_extraction_error_nonfatal (qaFail "boom") "c" "q" "boom"
    (by decide) (by decide) rfl

/-- C7: on a successful call whose result carries score c, the metric
labelled Confidence displaying c in two-decimal percent format is
emitted. -/
theorem C7_confidence_metric_format (qa : Pipeline)
    (context question : String) (r : QAResult) (c : ℚ)
    (hc : truthy context = true) (hq : truthy question = true)
    (hcall : qa question context = .ok r) (hscore : r.score = some c) :
    Output.metric "Confidence" (formatPercent2 c) ∈
      (mainRun (.ok qa) true context question).outputs := by
  simp [mainRun, buttonHandler, hc, hq, hcall, hscore]

/-- Witness for C7 at a concrete pipeline whose score is nine tenths. -/
theorem C7_witness :
    Output.metric "Confidence" (formatPercent2 (mkRat 9 10)) ∈
      (mainRun (.ok (qaOk "1921" (some (mkRat 9 10)))) true "c" "q").outputs :=
  C7_confidence_metric_format (qaOk "1921" (some (mkRat 9 10))) "c" "q"
    ⟨"1921", some (mkRat 9 10)⟩ (mkRat 9 10) (by decide) (by decide) rfl rfl

/-- C8: when the result record has no score, the confidence defaults
to 0, the metric shows 0.00 percent, and the low-confidence warning is
emitted. -/
theorem C8_missing_score_defaults (qa : Pipeline)
    (context question : String) (r : QAResult)
    (hc : truthy context = true) (hq : truthy question = true)
    (hcall : qa question context = .ok r) (hscore : r.score = none) :
    Output.metric "Confidence" "0.00%" ∈
      (mainRun (.ok qa) true context question).outputs ∧
    Output.warning lowConfidenceMsg ∈
      (mainRun (.ok qa) true context question).outputs := by
  have hfmt : formatPercent2 0 = "0.00%" := by decide
  have hlt : (0 : ℚ) < half := by decide
  simp [mainRun, buttonHandler, hc, hq, hcall, hscore, hfmt, hlt]

/-- Witness for C8 at a concrete pipeline returning no score. -/
theorem C8_witness :
    Output.metric "Confidence" "0.00%" ∈
      (mainRun (.ok (qaOk "1921" none)) true "c" "q").outputs ∧
    Output.warning lowConfidenceMsg ∈
      (mainRun (.ok (qaOk "1921" none)) true "c" "q").outputs :=
  C8_missing_score_defaults (qaOk "1921" none) "c" "q"
    ⟨"1921", none⟩ (by decide) (by decide) rfl rfl

/-- C9: on every successful call the answer and the confidence metric
are emitted unconditionally, and at low confidence the warning is
emitted in addition to them. -/
theorem C9_answer_metric_unconditional (qa : Pipeline)
    (context question : String) (r : QAResult)
    (hc : truthy context = true) (hq : truthy question = true)
    (hcall : qa question context = .ok r) :
    Output.success r.answer ∈
      (mainRun (.ok qa) true context question).outputs ∧
    Output.metric "Confidence" (formatPercent2 (r.score.getD 0)) ∈
      (mainRun (.ok qa) true context question).outputs ∧
    (r.score.getD 0 < 1/2 → Output.warning lowConfidenceMsg ∈
      (mainRun (.ok qa) true context question).outputs) := by
  refine ⟨?_, ?_, fun hlow => ?_⟩
  · simp [mainRun, buttonHandler, hc, hq, hcall]
  · simp [mainRun, buttonHandler, hc, hq, hcall]
  · rw [← half_eq] at hlow
    simp [mainRun, buttonHandler, hc, hq, hcall, hlow]

/-- Witness for C9 at a concrete pipeline with a low score. -/
theorem C9_witness :
    Output.success (QAResult.mk "1921" (some (mkRat 1 10))).answer ∈
      (mainRun (.ok (qaOk "1921" (some (mkRat 1 10)))) true "c" "q").outputs ∧
    Output.metric "Confidence"
        (formatPercent2 ((QAResult.mk "1921" (some (mkRat 1 10))).score.getD 0)) ∈
      (mainRun (.ok (qaOk "1921" (some (mkRat 1 10)))) true "c" "q").outputs ∧
    ((QAResult.mk "1921" (some (mkRat 1 10))).score.getD 0 < 1/2 →
      Output.warning lowConfidenceMsg ∈
        (mainRun (.ok (qaOk "1921" (some (mkRat 1 10)))) true "c" "q").outputs) :=
  C9_answer_metric_unconditional (qaOk "1921" (some (mkRat 1 10))) "c" "q"
    ⟨"1921", some (mkRat 1 10)⟩ (by decide) (by decide) rfl

/-- C10: the non-emptiness check is Python string truthiness, so a
whitespace-only context and question count as provided: the model is
invoked once and the missing-input warning is not shown. -/
theorem C10_whitespace_is_truthy :
    truthy " " = true ∧
    (mainRun (.ok (qaOk "ans" (some 1))) true " " " ").modelCalls = 1 ∧
    Output.warning provideBothMsg ∉
      (mainRun (.ok (qaOk "ans" (some 1))) true " " " ").outputs := by
  decide

end QA
